import Mathlib

/-!
Shallow embedding of the Synk real-time room core
(`src/synk-backend/src/WebSocketHandler.ts`) and of the `Room` state
machine it drives. The router (`WebSocketHandler`) is translated
directly from the TypeScript source; the `Room` class is imported by
the router from `Room.js`, which is not part of the sources at hand,
so its operations are modelled from the specification (each such
definition carries a doc comment starting `Modelled from the spec:`).

Timestamps are in milliseconds, represented as `Int` (JS `Date`
arithmetic). Fresh uuids and fresh song ids are passed in as explicit
parameters. Outbound traffic is modelled as a list of `Send` values:
a `Send` to `Dest.caller` is a `ws.send` on the handling connection,
a `Send` to `Dest.user id` is a delivery attempted through the
connection registry during a room broadcast. Channel liveness
(`readyState === OPEN`) is not represented: a registered connection is
treated as live, which only affects to whom a broadcast is attempted,
never whether one is emitted.
-/

/-- A room member: `{id, name, isHost}`. -/
structure User where
  id : String
  name : String
  isHost : Bool
deriving Repr, DecidableEq

/-- A queued song; `votedBy` is the set of voter ids, kept as a
duplicate-free list in insertion order. -/
structure Song where
  id : String
  title : String
  artist : String
  uri : String
  addedBy : String
  votedBy : List String
deriving Repr, DecidableEq

/-- The opaque song metadata carried by an `add_song` message. -/
structure SongInput where
  title : String
  artist : String
  uri : String
deriving Repr, DecidableEq

/-- The `Room` state: id (room code), current host, insertion-ordered
users and queue, creation timestamp. -/
structure Room where
  id : String
  hostId : String
  users : List User
  queue : List Song
  createdAt : Int
deriving Repr, DecidableEq

/-- Number of votes a song has. -/
def Song.votes (s : Song) : Nat :=
  s.votedBy.length

/-- Insert a song into a rank-sorted list: before the first song with
at most as many votes, so an earlier-added song precedes later songs
with an equal count. -/
def insertRanked (s : Song) : List Song → List Song
  | [] => [s]
  | t :: ts => if t.votes ≤ s.votes then s :: t :: ts else t :: insertRanked s ts

/-- Rank order: descending vote count, ties broken by ascending
insertion order (stable). -/
def rankSort : List Song → List Song
  | [] => []
  | s :: ss => insertRanked s (rankSort ss)

/-- Modelled from the spec: the `Room` constructor used by
`create_room` allocates a room whose single user is the host. -/
def Room.init (roomId userId userName : String) (now : Int) : Room :=
  { id := roomId
    hostId := userId
    users := [⟨userId, userName, true⟩]
    queue := []
    createdAt := now }

/-- Modelled from the spec: `addUser` appends a non-host member. -/
def Room.addUser (r : Room) (userId name : String) : Room :=
  { r with users := r.users ++ [⟨userId, name, false⟩] }

/-- Modelled from the spec: `removeUser` removes the user; if the
removed user was host and members remain, the earliest-joined
remaining member is promoted and its id returned. -/
def Room.removeUser (r : Room) (userId : String) : Room × Option String :=
  let remaining := r.users.filter (fun u => u.id != userId)
  if r.hostId == userId then
    match remaining with
    | [] => ({ r with users := [] }, none)
    | u :: rest => ({ r with hostId := u.id, users := { u with isHost := true } :: rest }, some u.id)
  else
    ({ r with users := remaining }, none)

/-- Modelled from the spec: `addSong` assigns a fresh id and an empty
vote set and appends at the end of the (insertion-ordered) queue. -/
def Room.addSong (r : Room) (input : SongInput) (addedByName freshSongId : String) : Room × Song :=
  let s : Song := ⟨freshSongId, input.title, input.artist, input.uri, addedByName, []⟩
  ({ r with queue := r.queue ++ [s] }, s)

/-- Modelled from the spec: `voteSong` fails (`false`) when the song is
absent from the queue or the user already voted; otherwise records the
vote. -/
def Room.voteSong (r : Room) (songId userId : String) : Room × Bool :=
  match r.queue.find? (fun s => s.id == songId) with
  | none => (r, false)
  | some s =>
    if s.votedBy.contains userId then (r, false)
    else
      ({ r with queue := r.queue.map fun t =>
          if t.id == songId then { t with votedBy := t.votedBy ++ [userId] } else t }, true)

/-- Modelled from the spec: `skipCurrentSong` removes and returns the
head of the rank-ordered queue, or `none` on an empty queue. -/
def Room.skipCurrentSong (r : Room) : Room × Option Song :=
  match rankSort r.queue with
  | [] => (r, none)
  | s :: _ => ({ r with queue := r.queue.filter (fun t => t.id != s.id) }, some s)

/-- Modelled from the spec: `clearQueue` empties the queue. -/
def Room.clearQueue (r : Room) : Room :=
  { r with queue := [] }

/-- The serialized snapshot sent to clients: queue in rank order. -/
structure Snapshot where
  id : String
  hostId : String
  createdAt : Int
  users : List User
  queue : List Song
deriving Repr, DecidableEq

/-- Modelled from the spec: `toJSON` produces the full snapshot with
the queue in current rank order. -/
def Room.toJSON (r : Room) : Snapshot :=
  { id := r.id
    hostId := r.hostId
    createdAt := r.createdAt
    users := r.users
    queue := rankSort r.queue }

/-- `Map.get` on a string-keyed association list (JS `Map` with unique
keys, insertion-ordered). -/
def mapGet {α : Type} : List (String × α) → String → Option α
  | [], _ => none
  | (k0, v0) :: rest, k => if k0 == k then some v0 else mapGet rest k

/-- `Map.set`: replaces the binding in place when the key is present,
appends otherwise. -/
def mapSet {α : Type} : List (String × α) → String → α → List (String × α)
  | [], k, v => [(k, v)]
  | (k0, v0) :: rest, k, v =>
    if k0 == k then (k, v) :: rest else (k0, v0) :: mapSet rest k v

/-- `Map.delete`: removes the binding for the key. -/
def mapDelete {α : Type} (m : List (String × α)) (k : String) : List (String × α) :=
  m.filter (fun p => p.1 != k)

/-- Register a connection under a user id (`userConnections.set`). -/
def connSet (conns : List String) (userId : String) : List String :=
  if conns.contains userId then conns else conns ++ [userId]

/-- The `WebSocketHandler` state: the room store and the connection
registry (registered user ids). -/
structure HandlerState where
  rooms : List (String × Room)
  userConnections : List String
deriving Repr, DecidableEq

/-- Per-connection session state, the closure variables
`userId` / `roomId` (`null` until a create/join succeeds). -/
structure Session where
  userId : Option String
  roomId : Option String
deriving Repr, DecidableEq

/-- Outbound protocol messages. -/
inductive OutMsg where
  | room_created (roomId userId : String) (room : Snapshot)
  | room_joined (roomId userId : String) (room : Snapshot)
  | user_joined (user : Option User) (room : Snapshot)
  | song_added (song : Song) (room : Snapshot)
  | song_voted (songId userId : String) (room : Snapshot)
  | song_skipped (skippedSong : Song) (room : Snapshot)
  | queue_cleared (room : Snapshot)
  | user_left (userId : String) (userName : Option String) (newHost : Option String) (room : Snapshot)
  | room_state (room : Snapshot)
  | pong
  | error (message : String)
deriving Repr, DecidableEq

/-- Destination of an outbound send: the handling connection itself
(`ws.send`), or a member reached through the connection registry. -/
inductive Dest where
  | caller
  | user (id : String)
deriving Repr, DecidableEq

/-- One attempted delivery. -/
structure Send where
  dest : Dest
  msg : OutMsg
deriving Repr, DecidableEq

/-- Inbound protocol messages; `unknown` is any parseable frame whose
`type` is none of the dispatched ones. -/
inductive InMsg where
  | join_room (userName roomCode : String)
  | create_room (userName roomCode : String)
  | add_song (song : SongInput)
  | vote_song (songId : String)
  | skip_song
  | clear_queue
  | get_room_state
  | ping
  | unknown (ty : String)
deriving Repr, DecidableEq

/-- `broadcastToRoom`: deliver to every member of the room except the
excluded one, through the connection registry. -/
def broadcastToRoom (st : HandlerState) (roomId : String) (msg : OutMsg)
    (excludeUserId : Option String) : List Send :=
  match mapGet st.rooms roomId with
  | none => []
  | some room =>
    (room.users.filter fun u =>
        decide (excludeUserId ≠ some u.id) && st.userConnections.contains u.id).map
      fun u => ⟨.user u.id, msg⟩

/-- `handleCreateRoom`: unconditionally constructs a fresh room and
stores it under the requested code, registers the caller's connection,
binds the session and replies with the snapshot. -/
def handleCreateRoom (st : HandlerState) (userName roomCode freshId : String) (now : Int) :
    HandlerState × (String × String) × List Send :=
  let userId := freshId
  let roomId := roomCode
  let room := Room.init roomId userId userName now
  let st' : HandlerState :=
    { rooms := mapSet st.rooms roomId room
      userConnections := connSet st.userConnections userId }
  (st', (userId, roomId), [⟨.caller, .room_created roomId userId room.toJSON⟩])

/-- `handleJoinRoom`: room lookup, error to the caller when absent;
otherwise add the user, bind the session (the returned id pair),
reply with the snapshot and broadcast `user_joined` to the others. -/
def handleJoinRoom (st : HandlerState) (userName roomCode freshId : String) :
    HandlerState × Option (String × String) × List Send :=
  match mapGet st.rooms roomCode with
  | none => (st, none, [⟨.caller, .error "Room not found"⟩])
  | some room =>
    let userId := freshId
    let roomId := roomCode
    let room' := room.addUser userId userName
    let st' : HandlerState :=
      { rooms := mapSet st.rooms roomId room'
        userConnections := connSet st.userConnections userId }
    (st', some (userId, roomId),
      ⟨.caller, .room_joined roomId userId room'.toJSON⟩ ::
      broadcastToRoom st' roomId
        (.user_joined (room'.users.find? (fun v => v.id == userId)) room'.toJSON)
        (some userId))

/-- `handleAddSong`: no-op when the room or the user vanished;
otherwise append the song and broadcast `song_added` to all members. -/
def handleAddSong (st : HandlerState) (song : SongInput) (userId roomId freshSongId : String) :
    HandlerState × List Send :=
  match mapGet st.rooms roomId with
  | none => (st, [])
  | some room =>
    match room.users.find? (fun u => u.id == userId) with
    | none => (st, [])
    | some user =>
      let room' := (room.addSong song user.name freshSongId).1
      let added := (room.addSong song user.name freshSongId).2
      let st' : HandlerState := { st with rooms := mapSet st.rooms roomId room' }
      (st', broadcastToRoom st' roomId (.song_added added room'.toJSON) none)

/-- `handleVoteSong`: on success broadcast `song_voted` to all members;
on failure reply to the caller with the (single) vote error. -/
def handleVoteSong (st : HandlerState) (songId userId roomId : String) :
    HandlerState × List Send :=
  match mapGet st.rooms roomId with
  | none => (st, [⟨.caller, .error "Room not found"⟩])
  | some room =>
    if (room.voteSong songId userId).2 then
      let room' := (room.voteSong songId userId).1
      let st' : HandlerState := { st with rooms := mapSet st.rooms roomId room' }
      (st', broadcastToRoom st' roomId (.song_voted songId userId room'.toJSON) none)
    else
      (st, [⟨.caller, .error "Already voted for this song"⟩])

/-- `handleSkipSong`: host-gated; on a missing room or a non-host
caller, a single error reply; otherwise skip and broadcast
`song_skipped` when a song was actually removed. -/
def handleSkipSong (st : HandlerState) (userId roomId : String) :
    HandlerState × List Send :=
  match mapGet st.rooms roomId with
  | none => (st, [⟨.caller, .error "Only host can skip songs"⟩])
  | some room =>
    if room.hostId != userId then
      (st, [⟨.caller, .error "Only host can skip songs"⟩])
    else
      match (room.skipCurrentSong).2 with
      | none => (st, [])
      | some s =>
        let room' := (room.skipCurrentSong).1
        let st' : HandlerState := { st with rooms := mapSet st.rooms roomId room' }
        (st', broadcastToRoom st' roomId (.song_skipped s room'.toJSON) none)

/-- `handleClearQueue`: host-gated; on success broadcast
`queue_cleared` to all members. -/
def handleClearQueue (st : HandlerState) (userId roomId : String) :
    HandlerState × List Send :=
  match mapGet st.rooms roomId with
  | none => (st, [⟨.caller, .error "Only host can clear queue"⟩])
  | some room =>
    if room.hostId != userId then
      (st, [⟨.caller, .error "Only host can clear queue"⟩])
    else
      let room' := room.clearQueue
      let st' : HandlerState := { st with rooms := mapSet st.rooms roomId room' }
      (st', broadcastToRoom st' roomId (.queue_cleared room'.toJSON) none)

/-- `handleGetRoomState`: unicast reply with the snapshot. -/
def handleGetRoomState (st : HandlerState) (roomId : String) :
    HandlerState × List Send :=
  match mapGet st.rooms roomId with
  | none => (st, [⟨.caller, .error "Room not found"⟩])
  | some room => (st, [⟨.caller, .room_state room.toJSON⟩])

/-- `handleUserLeave` (run on transport close): remove the user and its
connection; delete the room when it became empty, otherwise broadcast
`user_left` with the departing user's name and any new host. -/
def handleUserLeave (st : HandlerState) (userId roomId : String) :
    HandlerState × List Send :=
  match mapGet st.rooms roomId with
  | none => (st, [])
  | some room =>
    let user := room.users.find? (fun u => u.id == userId)
    let room' := (room.removeUser userId).1
    let newHost := (room.removeUser userId).2
    let st1 : HandlerState :=
      { rooms := mapSet st.rooms roomId room'
        userConnections := st.userConnections.filter (fun c => c != userId) }
    if room'.users.length == 0 then
      ({ st1 with rooms := mapDelete st1.rooms roomId }, [])
    else
      (st1, broadcastToRoom st1 roomId
        (.user_left userId (user.map User.name) newHost room'.toJSON) none)

/-- The truthiness test `if (userId && roomId)` guarding every
session-scoped message (`null` and the empty string are falsy). -/
def sessionIds (sess : Session) : Option (String × String) :=
  match sess.userId, sess.roomId with
  | some u, some r => if u == "" || r == "" then none else some (u, r)
  | _, _ => none

/-- The `ws.on('message')` callback: parse (a `none` frame is an
unparseable payload, caught by the surrounding try/catch), dispatch on
the message type, thread the session state. -/
def handleMessage (st : HandlerState) (sess : Session) (frame : Option InMsg)
    (freshId freshSongId : String) (now : Int) :
    HandlerState × Session × List Send :=
  match frame with
  | none => (st, sess, [⟨.caller, .error "Invalid message format"⟩])
  | some m =>
    match m with
    | .join_room userName roomCode =>
      let res := handleJoinRoom st userName roomCode freshId
      match res.2.1 with
      | some ids => (res.1, ⟨some ids.1, some ids.2⟩, res.2.2)
      | none => (res.1, sess, res.2.2)
    | .create_room userName roomCode =>
      let res := handleCreateRoom st userName roomCode freshId now
      (res.1, ⟨some res.2.1.1, some res.2.1.2⟩, res.2.2)
    | .add_song song =>
      match sessionIds sess with
      | some ids =>
        let res := handleAddSong st song ids.1 ids.2 freshSongId
        (res.1, sess, res.2)
      | none => (st, sess, [])
    | .vote_song songId =>
      match sessionIds sess with
      | some ids =>
        let res := handleVoteSong st songId ids.1 ids.2
        (res.1, sess, res.2)
      | none => (st, sess, [])
    | .skip_song =>
      match sessionIds sess with
      | some ids =>
        let res := handleSkipSong st ids.1 ids.2
        (res.1, sess, res.2)
      | none => (st, sess, [])
    | .clear_queue =>
      match sessionIds sess with
      | some ids =>
        let res := handleClearQueue st ids.1 ids.2
        (res.1, sess, res.2)
      | none => (st, sess, [])
    | .get_room_state =>
      match sessionIds sess with
      | some ids =>
        let res := handleGetRoomState st ids.2
        (res.1, sess, res.2)
      | none => (st, sess, [])
    | .ping => (st, sess, [⟨.caller, .pong⟩])
    | .unknown _ => (st, sess, [⟨.caller, .error "Unknown message type"⟩])

/-- The `ws.on('close')` callback: a leave when the session is bound. -/
def handleClose (st : HandlerState) (sess : Session) : HandlerState × List Send :=
  match sessionIds sess with
  | some ids => handleUserLeave st ids.1 ids.2
  | none => (st, [])

/-- `cleanupEmptyRooms`: the periodic sweep deleting rooms that are
empty and older than one hour. -/
def cleanupEmptyRooms (st : HandlerState) (now : Int) : HandlerState :=
  let oneHourAgo : Int := now - 60 * 60 * 1000
  { st with rooms := st.rooms.filter fun p =>
      !(p.2.users.isEmpty && decide (p.2.createdAt < oneHourAgo)) }

theorem mapGet_mapSet_self {α : Type} (m : List (String × α)) (k : String) (v : α) :
    mapGet (mapSet m k v) k = some v := by
  induction m with
  | nil => simp [mapGet, mapSet]
  | cons p rest ih =>
    obtain ⟨k0, v0⟩ := p
    by_cases h : k0 = k
    · subst h
      simp [mapGet, mapSet]
    · simp [mapGet, mapSet, h, ih]

theorem mapGet_mapDelete_self {α : Type} (m : List (String × α)) (k : String) :
    mapGet (mapDelete m k) k = none := by
  induction m with
  | nil => rfl
  | cons p rest ih =>
    obtain ⟨k0, v0⟩ := p
    by_cases h : k0 = k
    · subst h
      simpa [mapDelete, List.filter_cons] using ih
    · simpa [mapDelete, mapGet, List.filter_cons, h] using ih

theorem decide_none_ne_some (a : String) :
    decide ((none : Option String) ≠ some a) = true := rfl

/-- A sample populated room used to instantiate the theorems. -/
def roomA : Room :=
  { id := "R"
    hostId := "alice"
    users := [⟨"alice", "Alice", true⟩, ⟨"bob", "Bob", false⟩]
    queue := [⟨"s1", "Song One", "Artist", "uri1", "Alice", ["bob"]⟩]
    createdAt := 0 }

/-- A sample handler state registering `roomA` and both connections. -/
def stA : HandlerState :=
  { rooms := [("R", roomA)], userConnections := ["alice", "bob"] }

/-- A sample one-member room with an empty queue. -/
def roomSolo : Room :=
  { id := "S"
    hostId := "alice"
    users := [⟨"alice", "Alice", true⟩]
    queue := []
    createdAt := 0 }

/-- A sample handler state registering only `roomSolo`. -/
def stSolo : HandlerState :=
  { rooms := [("S", roomSolo)], userConnections := ["alice"] }

/-- Claim C4: an `add_song`, `vote_song`, `skip_song`, `clear_queue` or
`get_room_state` message arriving on a connection with unset session
state is silently ignored: no reply, no error, no state change. -/
theorem unbound_session_messages_ignored (st : HandlerState) (song : SongInput)
    (songId freshId freshSongId : String) (now : Int) :
    handleMessage st ⟨none, none⟩ (some (.add_song song)) freshId freshSongId now
      = (st, ⟨none, none⟩, []) ∧
    handleMessage st ⟨none, none⟩ (some (.vote_song songId)) freshId freshSongId now
      = (st, ⟨none, none⟩, []) ∧
    handleMessage st ⟨none, none⟩ (some .skip_song) freshId freshSongId now
      = (st, ⟨none, none⟩, []) ∧
    handleMessage st ⟨none, none⟩ (some .clear_queue) freshId freshSongId now
      = (st, ⟨none, none⟩, []) ∧
    handleMessage st ⟨none, none⟩ (some .get_room_state) freshId freshSongId now
      = (st, ⟨none, none⟩, []) :=
  ⟨rfl, rfl, rfl, rfl, rfl⟩

/-- Claim C7: the message handler is total: an unparseable frame gets the
generic "Invalid message format" error with session and state intact,
and an unknown message type gets a generic error, with no room state
change and no broadcast in either case. -/
theorem malformed_and_unknown_frames_safe (st : HandlerState) (sess : Session)
    (ty freshId freshSongId : String) (now : Int) :
    handleMessage st sess none freshId freshSongId now
      = (st, sess, [⟨.caller, .error "Invalid message format"⟩]) ∧
    handleMessage st sess (some (.unknown ty)) freshId freshSongId now
      = (st, sess, [⟨.caller, .error "Unknown message type"⟩]) :=
  ⟨rfl, rfl⟩

/-- Claim C2: a `skip_song` or `clear_queue` whose caller is not the
host of the addressed room (or whose room is absent) leaves the state
unchanged and produces exactly one error reply to the caller, with no
broadcast. -/
theorem nonhost_skip_clear_rejected (st : HandlerState) (userId roomId : String)
    (h : mapGet st.rooms roomId = none ∨
         ∃ room, mapGet st.rooms roomId = some room ∧ room.hostId ≠ userId) :
    handleSkipSong st userId roomId
      = (st, [⟨.caller, .error "Only host can skip songs"⟩]) ∧
    handleClearQueue st userId roomId
      = (st, [⟨.caller, .error "Only host can clear queue"⟩]) := by
  rcases h with hnone | ⟨room, hr, hne⟩
  · exact ⟨by simp [handleSkipSong, hnone], by simp [handleClearQueue, hnone]⟩
  · exact ⟨by simp [handleSkipSong, hr, hne], by simp [handleClearQueue, hr, hne]⟩

/-- Witness for C2: `bob` is not the host of room `R` in `stA`; both
requests are rejected with a single unicast error. -/
theorem nonhost_skip_clear_rejected_witness :
    handleSkipSong stA "bob" "R"
      = (stA, [⟨.caller, .error "Only host can skip songs"⟩]) ∧
    handleClearQueue stA "bob" "R"
      = (stA, [⟨.caller, .error "Only host can clear queue"⟩]) :=
  nonhost_skip_clear_rejected stA "bob" "R" (Or.inr ⟨roomA, by decide, by decide⟩)

/-- Claim C9: a `skip_song` from the host of an existing room whose
queue yields no current song is a complete silent no-op: no reply, no
broadcast, no state change. -/
theorem host_skip_empty_queue_silent (st : HandlerState) (userId roomId : String)
    (room : Room) (h : mapGet st.rooms roomId = some room)
    (hh : room.hostId = userId) (hq : (room.skipCurrentSong).2 = none) :
    handleSkipSong st userId roomId = (st, []) := by
  simp [handleSkipSong, h, hh, hq]

/-- Witness for C9: the host of the empty-queue room `roomSolo` skips;
nothing is sent and nothing changes. -/
theorem host_skip_empty_queue_silent_witness :
    handleSkipSong stSolo "alice" "S" = (stSolo, []) :=
  host_skip_empty_queue_silent stSolo "alice" "S" roomSolo (by decide) (by decide) (by decide)

/-- Claim C10: every failed `vote_song` in an existing room — whether
the song id is absent from the queue or the user already voted — is
answered with the same "Already voted for this song" error, so the two
causes are indistinguishable to the caller. -/
theorem vote_failure_message_uniform (st : HandlerState) (songId userId roomId : String)
    (room : Room) (h : mapGet st.rooms roomId = some room)
    (hc : room.queue.find? (fun s => s.id == songId) = none ∨
          ∃ s, room.queue.find? (fun t => t.id == songId) = some s ∧
            s.votedBy.contains userId = true) :
    handleVoteSong st songId userId roomId
      = (st, [⟨.caller, .error "Already voted for this song"⟩]) := by
  have hfail : (room.voteSong songId userId).2 = false := by
    rcases hc with hnone | ⟨s, hs, hv⟩
    · simp [Room.voteSong, hnone]
    · have hv' : userId ∈ s.votedBy := by simpa using hv
      simp [Room.voteSong, hs, hv']
  simp [handleVoteSong, h, hfail]

/-- Witness for C10: voting for the absent song id `zz` in room `R`
produces the duplicate-vote error text. -/
theorem vote_failure_message_uniform_witness :
    handleVoteSong stA "zz" "alice" "R"
      = (stA, [⟨.caller, .error "Already voted for this song"⟩]) :=
  vote_failure_message_uniform stA "zz" "alice" "R" roomA (by decide) (Or.inl (by decide))

/-- Claim C1 (counterexample): with room `R` already registered in
`stA`, a `create_room` for code `R` is not rejected with `RoomExists`:
the stored room is replaced (its users, queue and host are lost) and
the caller receives `room_created`, not an error. -/
theorem create_room_existing_not_rejected :
    mapGet (handleCreateRoom stA "Mallory" "R" "m1" 7).1.rooms "R" ≠ some roomA ∧
    (handleCreateRoom stA "Mallory" "R" "m1" 7).2.2 =
      [⟨.caller, .room_created "R" "m1" (Room.init "R" "m1" "Mallory" 7).toJSON⟩] :=
  ⟨by decide, rfl⟩

/-- Claim C1 (amended): a `create_room` whose roomCode is already
registered does not fail: the handler replaces the registered room
with a fresh single-host room, replies `room_created` to the caller
only, and emits no broadcast. -/
theorem create_room_replaces_existing (st : HandlerState)
    (userName roomCode freshId : String) (now : Int) (old : Room)
    (h : mapGet st.rooms roomCode = some old) :
    (handleCreateRoom st userName roomCode freshId now).2.2 =
      [⟨.caller,
        .room_created roomCode freshId (Room.init roomCode freshId userName now).toJSON⟩] ∧
    mapGet (handleCreateRoom st userName roomCode freshId now).1.rooms roomCode =
      some (Room.init roomCode freshId userName now) :=
  ⟨rfl, by simp [handleCreateRoom, mapGet_mapSet_self]⟩

/-- Witness for C1 (amended): creating `R` over the populated `stA`
yields the unicast `room_created` reply and the replaced store entry. -/
theorem create_room_replaces_existing_witness :
    (handleCreateRoom stA "Mallory" "R" "m1" 7).2.2 =
      [⟨.caller, .room_created "R" "m1" (Room.init "R" "m1" "Mallory" 7).toJSON⟩] ∧
    mapGet (handleCreateRoom stA "Mallory" "R" "m1" 7).1.rooms "R" =
      some (Room.init "R" "m1" "Mallory" 7) :=
  create_room_replaces_existing stA "Mallory" "R" "m1" 7 roomA (by decide)

/-- Claim C5: a `vote_song` from a bound session whose room exists
broadcasts `song_voted` (songId, userId, updated snapshot) to all
connected members — the sender not excluded — on success, and on
failure (for either cause) sends a single error to the caller with no
broadcast. -/
theorem vote_song_broadcast_or_unicast_error (st : HandlerState)
    (songId userId roomId : String) (room : Room)
    (h : mapGet st.rooms roomId = some room) :
    ((room.voteSong songId userId).2 = true →
      handleVoteSong st songId userId roomId =
        ({ st with rooms := mapSet st.rooms roomId (room.voteSong songId userId).1 },
         ((room.voteSong songId userId).1.users.filter fun u =>
             st.userConnections.contains u.id).map
           fun u => ⟨.user u.id,
             .song_voted songId userId (room.voteSong songId userId).1.toJSON⟩)) ∧
    ((room.voteSong songId userId).2 = false →
      handleVoteSong st songId userId roomId =
        (st, [⟨.caller, .error "Already voted for this song"⟩])) := by
  constructor
  · intro hs
    simp [handleVoteSong, h, hs, broadcastToRoom, mapGet_mapSet_self]
  · intro hf
    simp [handleVoteSong, h, hf]

/-- Witness for C5: `alice` successfully votes for `s1` in `stA` and
both members get the broadcast; `bob` votes again and alone gets the
error. -/
theorem vote_song_broadcast_or_unicast_error_witness :
    (handleVoteSong stA "s1" "alice" "R" =
      ({ stA with rooms := mapSet stA.rooms "R" (roomA.voteSong "s1" "alice").1 },
       ((roomA.voteSong "s1" "alice").1.users.filter fun u =>
           stA.userConnections.contains u.id).map
         fun u => ⟨.user u.id,
           .song_voted "s1" "alice" (roomA.voteSong "s1" "alice").1.toJSON⟩)) ∧
    (handleVoteSong stA "s1" "bob" "R" =
      (stA, [⟨.caller, .error "Already voted for this song"⟩])) :=
  ⟨(vote_song_broadcast_or_unicast_error stA "s1" "alice" "R" roomA (by decide)).1 (by decide),
   (vote_song_broadcast_or_unicast_error stA "s1" "bob" "R" roomA (by decide)).2 (by decide)⟩

/-- Claim C6: `join_room` with an unregistered code sends a single
error to the caller; otherwise the joiner is added, receives
`room_joined` with the full snapshot, and `user_joined` is broadcast
to every connected member except the joiner. -/
theorem join_room_reply_and_broadcast (st : HandlerState)
    (userName roomCode freshId : String) :
    (mapGet st.rooms roomCode = none →
      handleJoinRoom st userName roomCode freshId =
        (st, none, [⟨.caller, .error "Room not found"⟩])) ∧
    (∀ room, mapGet st.rooms roomCode = some room →
      handleJoinRoom st userName roomCode freshId =
        ({ rooms := mapSet st.rooms roomCode (room.addUser freshId userName)
           userConnections := connSet st.userConnections freshId },
         some (freshId, roomCode),
         ⟨.caller, .room_joined roomCode freshId (room.addUser freshId userName).toJSON⟩ ::
         ((room.addUser freshId userName).users.filter fun u =>
             decide (some freshId ≠ some u.id) &&
               (connSet st.userConnections freshId).contains u.id).map
           fun u => ⟨.user u.id,
             .user_joined
               ((room.addUser freshId userName).users.find? fun v => v.id == freshId)
               (room.addUser freshId userName).toJSON⟩)) := by
  constructor
  · intro h
    simp [handleJoinRoom, h]
  · intro room h
    simp [handleJoinRoom, h, broadcastToRoom, mapGet_mapSet_self]

/-- Witness for C6: joining the unknown code `X` fails with a unicast
error; joining `R` succeeds with the reply and the exclusion-broadcast. -/
theorem join_room_reply_and_broadcast_witness :
    (handleJoinRoom stA "Dana" "X" "d1" =
      (stA, none, [⟨.caller, .error "Room not found"⟩])) ∧
    (handleJoinRoom stA "Dana" "R" "d1" =
      ({ rooms := mapSet stA.rooms "R" (roomA.addUser "d1" "Dana")
         userConnections := connSet stA.userConnections "d1" },
       some ("d1", "R"),
       ⟨.caller, .room_joined "R" "d1" (roomA.addUser "d1" "Dana").toJSON⟩ ::
       ((roomA.addUser "d1" "Dana").users.filter fun u =>
           decide (some "d1" ≠ some u.id) &&
             (connSet stA.userConnections "d1").contains u.id).map
         fun u => ⟨.user u.id,
           .user_joined ((roomA.addUser "d1" "Dana").users.find? fun v => v.id == "d1")
             (roomA.addUser "d1" "Dana").toJSON⟩)) :=
  ⟨(join_room_reply_and_broadcast stA "Dana" "X" "d1").1 (by decide),
   (join_room_reply_and_broadcast stA "Dana" "R" "d1").2 roomA (by decide)⟩

/-- Claim C3: processing the disconnect of a room's last remaining user
deletes the room from the store in the same handler, so a subsequent
`join_room` with that code is answered with the room-not-found error;
when users remain, the room is kept and the remaining connected
members receive a `user_left` broadcast carrying the departing user's
name and any new host id. -/
theorem leave_deletes_empty_room_else_broadcasts (st : HandlerState)
    (userId roomId userName freshId : String) (room : Room)
    (h : mapGet st.rooms roomId = some room) :
    ((room.removeUser userId).1.users = [] →
      mapGet (handleUserLeave st userId roomId).1.rooms roomId = none ∧
      handleJoinRoom (handleUserLeave st userId roomId).1 userName roomId freshId =
        ((handleUserLeave st userId roomId).1, none,
         [⟨.caller, .error "Room not found"⟩])) ∧
    ((room.removeUser userId).1.users ≠ [] →
      mapGet (handleUserLeave st userId roomId).1.rooms roomId
        = some (room.removeUser userId).1 ∧
      (handleUserLeave st userId roomId).2 =
        ((room.removeUser userId).1.users.filter fun u =>
            (st.userConnections.filter fun c => c != userId).contains u.id).map
          fun u => ⟨.user u.id,
            .user_left userId ((room.users.find? fun v => v.id == userId).map User.name)
              (room.removeUser userId).2 (room.removeUser userId).1.toJSON⟩) := by
  constructor
  · intro hemp
    have hH : handleUserLeave st userId roomId =
        ({ rooms := mapDelete (mapSet st.rooms roomId (room.removeUser userId).1) roomId
           userConnections := st.userConnections.filter fun c => c != userId }, []) := by
      simp [handleUserLeave, h, hemp]
    rw [hH]
    exact ⟨mapGet_mapDelete_self _ _, by simp [handleJoinRoom, mapGet_mapDelete_self]⟩
  · intro hne
    have hlen : ((room.removeUser userId).1.users.length == 0) = false := by
      simpa using hne
    have hH : handleUserLeave st userId roomId =
        ({ rooms := mapSet st.rooms roomId (room.removeUser userId).1
           userConnections := st.userConnections.filter fun c => c != userId },
         broadcastToRoom
           { rooms := mapSet st.rooms roomId (room.removeUser userId).1
             userConnections := st.userConnections.filter fun c => c != userId }
           roomId
           (.user_left userId ((room.users.find? fun v => v.id == userId).map User.name)
             (room.removeUser userId).2 (room.removeUser userId).1.toJSON) none) := by
      simp [handleUserLeave, h, hlen]
    rw [hH]
    exact ⟨mapGet_mapSet_self _ _ _, by simp [broadcastToRoom, mapGet_mapSet_self]⟩

/-- Witness for C3: the last user of `stSolo` leaves and the room is
deleted, so re-joining `S` fails; in `stA` the non-host `bob` leaves
and the remaining member gets the `user_left` broadcast. -/
theorem leave_deletes_empty_room_else_broadcasts_witness :
    (mapGet (handleUserLeave stSolo "alice" "S").1.rooms "S" = none ∧
     handleJoinRoom (handleUserLeave stSolo "alice" "S").1 "Carol" "S" "c1" =
       ((handleUserLeave stSolo "alice" "S").1, none,
        [⟨.caller, .error "Room not found"⟩])) ∧
    (mapGet (handleUserLeave stA "bob" "R").1.rooms "R"
       = some (roomA.removeUser "bob").1 ∧
     (handleUserLeave stA "bob" "R").2 =
       ((roomA.removeUser "bob").1.users.filter fun u =>
           (stA.userConnections.filter fun c => c != "bob").contains u.id).map
         fun u => ⟨.user u.id,
           .user_left "bob" ((roomA.users.find? fun v => v.id == "bob").map User.name)
             (roomA.removeUser "bob").2 (roomA.removeUser "bob").1.toJSON⟩) :=
  ⟨(leave_deletes_empty_room_else_broadcasts stSolo "alice" "S" "Carol" "c1" roomSolo
      (by decide)).1 (by decide),
   (leave_deletes_empty_room_else_broadcasts stA "bob" "R" "Carol" "c1" roomA
      (by decide)).2 (by decide)⟩

/-- Claim C8: the idle sweep keeps a binding exactly when it is not an
empty room older than the one-hour threshold, leaving every surviving
binding (and the connection registry) unchanged. -/
theorem sweep_removes_exactly_stale_empty (st : HandlerState) (now : Int)
    (p : String × Room) :
    (cleanupEmptyRooms st now).userConnections = st.userConnections ∧
    (p ∈ (cleanupEmptyRooms st now).rooms ↔
      p ∈ st.rooms ∧ ¬(p.2.users = [] ∧ p.2.createdAt < now - 60 * 60 * 1000)) := by
  refine ⟨rfl, ?_⟩
  simp only [cleanupEmptyRooms, List.mem_filter]
  constructor
  · rintro ⟨hm, hf⟩
    refine ⟨hm, ?_⟩
    rintro ⟨he, hc⟩
    rw [he] at hf
    simp at hf
    omega
  · rintro ⟨hm, hn⟩
    refine ⟨hm, ?_⟩
    by_cases he : p.2.users = []
    · have hc : ¬ p.2.createdAt < now - 60 * 60 * 1000 := fun hc => hn ⟨he, hc⟩
      simp [he]
      omega
    · simp [List.isEmpty_iff, he]
